import Mathlib

/-!
Verification development for the Nifty 50 tracker (`script.js`).

The data-acquisition and fallback pipeline is embedded shallowly:
numbers are rationals, the two remote endpoints and the localStorage
slot become explicit oracle/state parameters, and every JavaScript
function of the pipeline becomes a total Lean function whose `Option`
results model `null` returns and whose `TickResult.crash` models an
uncaught `TypeError` escaping the tick.
-/

namespace MarketAnalysis

/-- A price record as used throughout `script.js`: the shape of
`currentData`, of the objects returned by `tryFetchFromFinance`,
`fetchLastTradingDayFromAPI` and `getDefaultLastTradingDayData`, and of
the argument of `updateUI` / `updateUIWithLastTradingDay`.
`isLastTradingDay` is the staleness marker; records built without that
field (live and mock data) carry `false`. -/
structure Data where
  price : ℚ
  change : ℚ
  changePercent : ℚ
  high : ℚ
  low : ℚ
  «open» : ℚ
  close : ℚ
  isLastTradingDay : Bool
deriving DecidableEq, Repr

/-- The initial `currentData` of `script.js` (all fields zero). -/
def currentData0 : Data :=
  { price := 0, change := 0, changePercent := 0, high := 0, low := 0,
    «open» := 0, close := 0, isLastTradingDay := false }

/-- `isMarketOpen` (script.js:42-59), as a function of the IST weekday
(`getDay()`: 0 = Sunday .. 6 = Saturday) and the IST hours/minutes.
Open iff weekday is Monday..Friday and the minute of day lies in
[555, 930), i.e. [09:15, 15:30). -/
def isMarketOpen (dayOfWeek hours minutes : ℕ) : Bool :=
  let timeInMinutes := hours * 60 + minutes
  let isWeekday := decide (1 ≤ dayOfWeek) && decide (dayOfWeek ≤ 5)
  let marketOpenTime := 9 * 60 + 15
  let marketCloseTime := 15 * 60 + 30
  isWeekday && decide (marketOpenTime ≤ timeInMinutes) &&
    decide (timeInMinutes < marketCloseTime)

/-- `maxHistoryLength` (script.js:10). -/
def maxHistoryLength : ℕ := 20

/-- `addToHistory` (script.js:386-391): push the price, and if the length
now exceeds `maxHistoryLength`, shift off the oldest entry. -/
def addToHistory (priceHistory : List ℚ) (price : ℚ) : List ℚ :=
  let h := priceHistory ++ [price]
  if maxHistoryLength < h.length then h.tail else h

/-- The nested numeric fields of the live-quote response body
(`result.quoteSummary.result[0].price` in script.js:198), each field a
`{raw: number}` wrapper; `none` models an absent/malformed field, whose
`.raw` access would throw a TypeError. -/
structure LivePayload where
  regularMarketPrice : Option ℚ
  regularMarketChange : Option ℚ
  regularMarketChangePercent : Option ℚ
  regularMarketDayHigh : Option ℚ
  regularMarketDayLow : Option ℚ
  regularMarketOpen : Option ℚ
  regularMarketPreviousClose : Option ℚ
deriving DecidableEq, Repr

/-- Outcome of the live-quote `fetch` (script.js:194): a parsed body with
the expected nesting, a non-ok response, or a thrown transport error.
A body whose nesting down to `.price` is broken throws inside the `try`
and behaves like `transportError`, so it is folded into that case. -/
inductive LiveOutcome where
  | ok (p : LivePayload)
  | notOk
  | transportError
deriving DecidableEq, Repr

/-- `tryFetchFromFinance` (script.js:191-215): on an ok response, read the
seven `.raw` fields; a missing field throws and the `catch` turns it into
`null`. Non-ok responses fall through to `return null`; transport errors
are caught and also end in `return null`. -/
def tryFetchFromFinance : LiveOutcome → Option Data
  | .ok p =>
    match p.regularMarketPrice, p.regularMarketChange, p.regularMarketChangePercent,
        p.regularMarketDayHigh, p.regularMarketDayLow, p.regularMarketOpen,
        p.regularMarketPreviousClose with
    | some price, some change, some changePercent, some high, some low,
        some opn, some close =>
      some { price := price, change := change, changePercent := changePercent,
             high := high, low := low, «open» := opn, close := close,
             isLastTradingDay := false }
    | _, _, _, _, _, _, _ => none
  | .notOk => none
  | .transportError => none

/-- The optionally-present nested numeric fields of the historical-quote
response (`defaultKeyStatistics,financialData` modules, script.js:245-259);
`none` models a field absent anywhere along its optional chain. -/
structure HistPayload where
  regularMarketPrice : Option ℚ
  regularMarketChange : Option ℚ
  regularMarketChangePercent : Option ℚ
  fiftyTwoWeekHigh : Option ℚ
  fiftyTwoWeekLow : Option ℚ
  regularMarketOpen : Option ℚ
  regularMarketPreviousClose : Option ℚ
deriving DecidableEq, Repr

/-- Outcome of the historical-quote `fetch` (script.js:245): parsed body,
non-ok response, or thrown error (transport error, or a body whose
`result.quoteSummary.result[0]` access throws — both are caught at
script.js:267 and fold into the same `return null`). -/
inductive RemoteOutcome where
  | ok (p : HistPayload)
  | notOk
  | throws
deriving DecidableEq, Repr

/-- JavaScript `v?.raw || d` on an optionally-present numeric field:
the default applies when the field is absent *or* its value is falsy
(for a number, equal to 0). -/
def orFalsy : Option ℚ → ℚ → ℚ
  | some v, d => if v = 0 then d else v
  | none, d => d

/-- The local single-slot store under key `lastTradingDayData`:
absent (`getItem` returns null), a stored string that parses to a record,
or a stored string on which `JSON.parse` throws. -/
inductive CacheState where
  | absent
  | stored (d : Data)
  | corrupt
deriving DecidableEq, Repr

/-- The `priceData` record built by `fetchLastTradingDayFromAPI` on an ok
response (script.js:252-261): per-field `|| constant` defaulting, plus
`isLastTradingDay: true`. -/
def fetchLastTradingDayRecord (p : HistPayload) : Data :=
  { price := orFalsy p.regularMarketPrice 24250
    change := orFalsy p.regularMarketChange 0
    changePercent := orFalsy p.regularMarketChangePercent 0
    high := orFalsy p.fiftyTwoWeekHigh 25000
    low := orFalsy p.fiftyTwoWeekLow 23000
    «open» := orFalsy p.regularMarketOpen 24000
    close := orFalsy p.regularMarketPreviousClose 24250
    isLastTradingDay := true }

/-- `fetchLastTradingDayFromAPI` (script.js:242-272): on an ok response,
build the defaulted record, write it to localStorage, and return it; on a
non-ok response or a thrown error, return `null` with the store untouched.
Result: (returned value, localStorage slot afterwards). -/
def fetchLastTradingDayFromAPI (remote : RemoteOutcome) (cache : CacheState) :
    Option Data × CacheState :=
  match remote with
  | .ok p =>
    let priceData := fetchLastTradingDayRecord p
    (some priceData, .stored priceData)
  | .notOk => (none, cache)
  | .throws => (none, cache)

/-- `getDefaultLastTradingDayData` (script.js:277-288). -/
def getDefaultLastTradingDayData : Data :=
  { price := 24280.50, change := 150.25, changePercent := 0.62,
    high := 24450.75, low := 23950.00, «open» := 24100.00,
    close := 24280.50, isLastTradingDay := true }

/-- `getLastTradingDayData` (script.js:220-237). A stored record is
returned as-is. A corrupt slot makes `JSON.parse` throw, and the `catch`
returns the hardcoded default. An absent slot falls through to
`fetchLastTradingDayFromAPI`, whose `null` on failure is returned as-is
(that call never throws, so the `catch` cannot fire on this path).
Result: (returned value, localStorage slot afterwards, whether the
remote endpoint was contacted). -/
def getLastTradingDayData (cache : CacheState) (remote : RemoteOutcome) :
    Option Data × CacheState × Bool :=
  match cache with
  | .stored d => (some d, cache, false)
  | .corrupt => (some getDefaultLastTradingDayData, cache, false)
  | .absent =>
    let r := fetchLastTradingDayFromAPI remote cache
    (r.1, r.2, true)

/-- `parseFloat(x.toFixed(2))`: rounding to 2 decimal places, ties toward
+infinity (ECMA toFixed picks the larger candidate integer), which is
exactly Mathlib's `round`. -/
def round2 (x : ℚ) : ℚ := ((round (x * 100) : ℤ) : ℚ) / 100

/-- JavaScript `x || d` on a plain number: `d` when `x` is falsy (0). -/
def orZero (x d : ℚ) : ℚ := if x = 0 then d else x

/-- The open-market branch of `generateMockData` (script.js:300-316):
synthesize a session record from `currentData` and four `Math.random()`
draws `r1..r4` (each in `[0,1)`), rounding the derived fields with
`toFixed(2)`. No `isLastTradingDay` field is set, so the record is not
marked stale. -/
def mockSessionData (current : Data) (r1 r2 r3 r4 : ℚ) : Data :=
  let basePrice := orZero current.price 24250
  let variation := (r1 - 0.5) * 200
  let currentPrice := basePrice + variation
  let previousClose := orZero current.close basePrice
  let change := currentPrice - previousClose
  let changePercent := change / previousClose * 100
  { price := round2 currentPrice
    change := round2 change
    changePercent := round2 changePercent
    high := round2 (currentPrice + 100 + r2 * 50)
    low := round2 (currentPrice - 100 - r3 * 50)
    «open» := round2 (currentPrice + (r4 - 0.5) * 150)
    close := previousClose
    isLastTradingDay := false }

/-- What a tick delivers: `updateUI` rendered a record, or
`updateUIWithLastTradingDay` rendered a record, or a TypeError escaped
the tick and nothing was rendered. -/
inductive TickResult where
  | live (d : Data)
  | lastDay (d : Data)
  | crash
deriving DecidableEq, Repr

/-- `updateUIWithLastTradingDay(data)` (script.js:80-136): with a record
it renders it; with `null` the very first field access
(`data.price.toLocaleString`) throws a TypeError. -/
def updateUIWithLastTradingDay : Option Data → TickResult
  | some d => .lastDay d
  | none => .crash

/-- `generateMockData` (script.js:293-320): when the market is closed it
re-dispatches to the last-trading-day path; when open it synthesizes a
mock session record and renders it via `updateUI`. -/
def generateMockData (marketOpen : Bool) (cache : CacheState)
    (remote : RemoteOutcome) (current : Data) (r1 r2 r3 r4 : ℚ) :
    TickResult × CacheState :=
  if marketOpen then
    (.live (mockSessionData current r1 r2 r3 r4), cache)
  else
    let g := getLastTradingDayData cache remote
    (updateUIWithLastTradingDay g.1, g.2.1)

/-- `fetchNiftyPrice` (script.js:156-186), one tick at the IST timestamp
(`day`, `hour`, `minute`), with the live endpoint behaving as `live`, the
localStorage slot in state `cache`, the historical endpoint behaving as
`remote`, module state `currentData = current`, and `Math.random()` draws
`r1..r4`. The clock is constant during the tick, so every `isMarketOpen()`
call agrees.

Open market: a live quote is rendered via `updateUI`; a `null` from
`tryFetchFromFinance` raises `Error`, and the `catch` falls to
`generateMockData`. Closed market: `getLastTradingDayData` is awaited and
its value handed to `updateUIWithLastTradingDay`; if that value is `null`
the renderer throws, the `catch` re-runs the closed-market path once more,
and a second throw escapes the tick (`crash`).
Result: (what was rendered, localStorage slot afterwards). -/
def fetchNiftyPrice (day hour minute : ℕ) (live : LiveOutcome)
    (cache : CacheState) (remote : RemoteOutcome) (current : Data)
    (r1 r2 r3 r4 : ℚ) : TickResult × CacheState :=
  if isMarketOpen day hour minute then
    match tryFetchFromFinance live with
    | some d => (.live d, cache)
    | none => generateMockData (isMarketOpen day hour minute) cache remote
        current r1 r2 r3 r4
  else
    let g := getLastTradingDayData cache remote
    match updateUIWithLastTradingDay g.1 with
    | .crash =>
      let g' := getLastTradingDayData g.2.1 remote
      (updateUIWithLastTradingDay g'.1, g'.2.1)
    | res => (res, g.2.1)

/-! ## Theorems -/

/-- C6: `isMarketOpen` is true iff the IST weekday is Monday..Friday
(getDay 1..5) and the minutes-since-midnight lie in the half-open
interval [555, 930); in particular it is true at exactly 09:15, false at
exactly 15:30, and false for any time on Saturday (6) or Sunday (0). -/
theorem isMarketOpen_iff :
    (∀ dayOfWeek hours minutes : ℕ,
      isMarketOpen dayOfWeek hours minutes = true ↔
        (1 ≤ dayOfWeek ∧ dayOfWeek ≤ 5) ∧
          555 ≤ hours * 60 + minutes ∧ hours * 60 + minutes < 930) ∧
    isMarketOpen 2 9 15 = true ∧
    isMarketOpen 2 15 30 = false ∧
    (∀ hours minutes : ℕ,
      isMarketOpen 6 hours minutes = false ∧
        isMarketOpen 0 hours minutes = false) := by
  refine ⟨?_, by decide, by decide, ?_⟩
  · intro d h m
    simp [isMarketOpen, and_assoc]
  · intro h m
    constructor <;> simp [isMarketOpen]

/-- Evaluation of `isMarketOpen_iff` at a concrete open timestamp
(Tuesday 10:00 IST). -/
theorem isMarketOpen_iff_witness : isMarketOpen 2 10 0 = true :=
  (isMarketOpen_iff.1 2 10 0).mpr (by decide)

/-- The effect of folding `addToHistory` over a list of appended prices:
starting from a buffer of length at most `maxHistoryLength`, the result
is the suffix of `init ++ vals` that fits the capacity. -/
theorem addToHistory_foldl (vals : List ℚ) : ∀ init : List ℚ,
    init.length ≤ maxHistoryLength →
    List.foldl addToHistory init vals =
      (init ++ vals).drop (init.length + vals.length - maxHistoryLength) := by
  induction vals with
  | nil =>
    intro init h
    simp [Nat.sub_eq_zero_of_le h]
  | cons v vs ih =>
    intro init h
    rw [List.foldl_cons]
    rcases Nat.lt_or_ge init.length maxHistoryLength with hlt | hge
    · have hstep : addToHistory init v = init ++ [v] := by
        simp [addToHistory]
        omega
      rw [hstep, ih (init ++ [v]) (by simp; omega)]
      have harr : (init ++ [v]) ++ vs = init ++ v :: vs := by simp
      rw [harr]
      have hidx : (init ++ [v]).length + vs.length - maxHistoryLength =
          init.length + (v :: vs).length - maxHistoryLength := by
        simp
        omega
      rw [hidx]
    · have hlen : init.length = maxHistoryLength := le_antisymm h hge
      have hstep : addToHistory init v = (init ++ [v]).drop 1 := by
        rw [List.drop_one]
        simp [addToHistory]
        omega
      rw [hstep, ih ((init ++ [v]).drop 1) (by simpa using h)]
      have hidx : ((init ++ [v]).drop 1).length + vs.length - maxHistoryLength
          = vs.length := by
        simp
        omega
      rw [hidx, ← List.drop_append_of_le_length (by simp :
        1 ≤ (init ++ [v]).length), List.drop_drop]
      have harr : (init ++ [v]) ++ vs = init ++ v :: vs := by simp
      rw [harr]
      have hidx2 : 1 + vs.length =
          init.length + (v :: vs).length - maxHistoryLength := by
        simp
        omega
      rw [hidx2]

/-- C7: starting from any buffer of length at most the capacity
`maxHistoryLength` (20), every prefix of a sequence of `addToHistory`
appends keeps the length at most the capacity, and after appending
`maxHistoryLength + 5` values the buffer holds exactly the last
`maxHistoryLength` appended values, in append order. -/
theorem priceHistoryBuffer_bounded (init : List ℚ)
    (h : init.length ≤ maxHistoryLength) (vals : List ℚ) :
    (∀ pre, pre <+: vals →
      (List.foldl addToHistory init pre).length ≤ maxHistoryLength) ∧
    (vals.length = maxHistoryLength + 5 →
      List.foldl addToHistory init vals = vals.drop 5 ∧
        (List.foldl addToHistory init vals).length = maxHistoryLength) := by
  constructor
  · intro pre _
    rw [addToHistory_foldl pre init h, List.length_drop]
    simp
    omega
  · intro hv
    have hfold := addToHistory_foldl vals init h
    rw [hv] at hfold
    have hidx : init.length + (maxHistoryLength + 5) - maxHistoryLength =
        init.length + 5 := by omega
    rw [hidx] at hfold
    have hsplit : (init ++ vals).drop (init.length + 5) = vals.drop 5 := by
      rw [← List.drop_drop, List.drop_append_of_le_length (le_refl _),
        List.drop_length]
      simp
    constructor
    · rw [hfold, hsplit]
    · rw [hfold, hsplit, List.length_drop, hv]
      omega

/-- Evaluation of `priceHistoryBuffer_bounded`: appending 25 values to
the empty buffer retains exactly the last 20, in order. -/
theorem priceHistoryBuffer_bounded_witness :
    List.foldl addToHistory ([] : List ℚ)
        [1, 2, 3, 4, 5, 6, 7, 8, 9, 10, 11, 12, 13, 14, 15, 16, 17, 18, 19,
          20, 21, 22, 23, 24, 25] =
      [6, 7, 8, 9, 10, 11, 12, 13, 14, 15, 16, 17, 18, 19, 20, 21, 22, 23,
        24, 25] :=
  ((priceHistoryBuffer_bounded [] (by simp)
      [1, 2, 3, 4, 5, 6, 7, 8, 9, 10, 11, 12, 13, 14, 15, 16, 17, 18, 19,
        20, 21, 22, 23, 24, 25]).2 (by simp [maxHistoryLength])).1.trans
    (by simp)

/-- C1 (failing evaluation): with the cache slot absent and the remote
historical fetch failing (non-ok response or thrown error),
`getLastTradingDayData` returns `null` — not a structurally valid
record — because `fetchLastTradingDayFromAPI` signals failure by
returning `null` rather than throwing, so the `catch` that would supply
`getDefaultLastTradingDayData` never fires on this path. -/
theorem getLastTradingDayData_null_on_remote_failure :
    getLastTradingDayData .absent .notOk = (none, .absent, true) ∧
    getLastTradingDayData .absent .throws = (none, .absent, true) :=
  ⟨rfl, rfl⟩

/-- C2 (failing evaluation): at a market-closed timestamp (Saturday
12:00 IST) with an empty cache and a non-ok historical response, the tick
does not emit the hardcoded default quote: `getLastTradingDayData`
returns `null`, `updateUIWithLastTradingDay(null)` throws a TypeError,
the retry in the `catch` throws again, and the tick crashes with nothing
rendered. -/
theorem tick_closed_empty_cache_remote_failure_crashes :
    fetchNiftyPrice 6 12 0 .transportError .absent .notOk currentData0
      0 0 0 0 = (.crash, .absent) :=
  rfl

/-- C3 (failing evaluation): a branch of the pipeline leaves the
Presenter without a rendered quote and surfaces an error instead: at a
market-closed timestamp (Sunday 10:30 IST) with an empty cache and a
throwing historical fetch, the tick ends in an uncaught TypeError even
though the live endpoint is healthy. -/
theorem tick_closed_pipeline_crash_branch :
    (fetchNiftyPrice 0 10 30
        (.ok ⟨some 24500, some 100, some 1, some 24600, some 24400,
          some 24450, some 24400⟩)
        .absent .throws currentData0 0 0 0 0).1 = .crash :=
  rfl

/-- C8: `tryFetchFromFinance` yields a quote exactly when the response is
ok and all seven `{raw}` fields are present, the quote's fields being
those seven values (never marked stale); every transport error, non-ok
response, or payload with a missing field yields the `null` failure
value rather than an exception. -/
theorem tryFetchFromFinance_some_iff :
    ∀ (o : LiveOutcome) (d : Data),
      tryFetchFromFinance o = some d ↔
        o = .ok ⟨some d.price, some d.change, some d.changePercent,
            some d.high, some d.low, some d.«open», some d.close⟩ ∧
          d.isLastTradingDay = false := by
  intro o d
  obtain ⟨dp, dc, dcp, dh, dl, dop, dcl, ds⟩ := d
  cases o with
  | notOk => simp [tryFetchFromFinance]
  | transportError => simp [tryFetchFromFinance]
  | ok p =>
    obtain ⟨f1, f2, f3, f4, f5, f6, f7⟩ := p
    cases f1 <;> cases f2 <;> cases f3 <;> cases f4 <;> cases f5 <;>
      cases f6 <;> cases f7 <;>
      (simp [tryFetchFromFinance]; try tauto)

/-- Evaluation of `tryFetchFromFinance_some_iff` on a complete payload. -/
theorem tryFetchFromFinance_some_iff_witness :
    tryFetchFromFinance
        (.ok ⟨some 1, some 2, some 3, some 4, some 5, some 6, some 7⟩) =
      some ⟨1, 2, 3, 4, 5, 6, 7, false⟩ :=
  (tryFetchFromFinance_some_iff
    (.ok ⟨some 1, some 2, some 3, some 4, some 5, some 6, some 7⟩)
    ⟨1, 2, 3, 4, 5, 6, 7, false⟩).mpr ⟨rfl, rfl⟩

/-- C9: the cache slot is written only on the successful-remote path:
a stored record is returned as-is with no remote call and no write
(and no staleness check — the remote outcome is irrelevant); any change
to the slot can only be the successful fetch overwriting it with the
defaulted record; and the hardcoded-default tier (corrupt slot) returns
the default with no remote call and no write. -/
theorem getLastTradingDayData_frame :
    ∀ (cache : CacheState) (remote : RemoteOutcome),
      (∀ d, cache = .stored d →
        getLastTradingDayData cache remote = (some d, cache, false)) ∧
      ((getLastTradingDayData cache remote).2.1 ≠ cache →
        cache = .absent ∧ ∃ p, remote = .ok p ∧
          (getLastTradingDayData cache remote).2.1 =
            .stored (fetchLastTradingDayRecord p)) ∧
      (cache = .corrupt →
        getLastTradingDayData cache remote =
          (some getDefaultLastTradingDayData, cache, false)) := by
  intro cache remote
  refine ⟨?_, ?_, ?_⟩ <;>
    cases cache <;> cases remote <;>
      simp [getLastTradingDayData, fetchLastTradingDayFromAPI]

/-- Evaluation of `getLastTradingDayData_frame`: a stored record is
returned unchanged, without contacting the failing remote endpoint. -/
theorem getLastTradingDayData_frame_witness :
    getLastTradingDayData (.stored getDefaultLastTradingDayData) .notOk =
      (some getDefaultLastTradingDayData,
        .stored getDefaultLastTradingDayData, false) :=
  (getLastTradingDayData_frame (.stored getDefaultLastTradingDayData)
    .notOk).1 getDefaultLastTradingDayData rfl

/-- C10: per-field defaulting in the historical record triggers on falsy
values, not only on absent fields: a returned `regularMarketPrice` equal
to 0 is replaced by the constant default 24250 in the constructed
record. -/
theorem fetchLastTradingDayRecord_falsy_price (p : HistPayload)
    (h : p.regularMarketPrice = some 0) :
    (fetchLastTradingDayRecord p).price = 24250 := by
  simp [fetchLastTradingDayRecord, orFalsy, h]

/-- Evaluation of `fetchLastTradingDayRecord_falsy_price` on a payload
whose price field is present but 0. -/
theorem fetchLastTradingDayRecord_falsy_price_witness :
    (fetchLastTradingDayRecord
        ⟨some 0, some 5, some 5, some 5, some 5, some 5, some 5⟩).price =
      24250 :=
  fetchLastTradingDayRecord_falsy_price
    ⟨some 0, some 5, some 5, some 5, some 5, some 5, some 5⟩ rfl

/-- C5 (counterexample): a successful historical response carrying only
`regularMarketPrice`, with value 0, does not propagate that value: 0 is
falsy, so `|| 24250` replaces it and the record's price is 24250. -/
theorem fetchLastTradingDayRecord_zero_price_cex :
    ¬ ((fetchLastTradingDayRecord
        ⟨some 0, none, none, none, none, none, none⟩).price = 0) := by
  norm_num [fetchLastTradingDayRecord, orFalsy]

/-- C5 (amended): when the remote historical fetch succeeds with only
`regularMarketPrice` present and that value is nonzero, the returned and
cached record has that price and every other field at its constant
default: change 0, changePercent 0, high 25000, low 23000, open 24000,
previousClose 24250. -/
theorem fetchLastTradingDay_only_price (v : ℚ) (hv : v ≠ 0)
    (cache : CacheState) :
    fetchLastTradingDayFromAPI
        (.ok ⟨some v, none, none, none, none, none, none⟩) cache =
      (some ⟨v, 0, 0, 25000, 23000, 24000, 24250, true⟩,
        .stored ⟨v, 0, 0, 25000, 23000, 24000, 24250, true⟩) := by
  simp [fetchLastTradingDayFromAPI, fetchLastTradingDayRecord, orFalsy, hv]

/-- Evaluation of `fetchLastTradingDay_only_price` at price 24600. -/
theorem fetchLastTradingDay_only_price_witness :
    fetchLastTradingDayFromAPI
        (.ok ⟨some 24600, none, none, none, none, none, none⟩) .absent =
      (some ⟨24600, 0, 0, 25000, 23000, 24000, 24250, true⟩,
        .stored ⟨24600, 0, 0, 25000, 23000, 24000, 24250, true⟩) :=
  fetchLastTradingDay_only_price 24600 (by norm_num) .absent

/-- `toFixed(2)` rounding moves a value by at most 1/200. -/
theorem abs_round2_sub (x : ℚ) : |round2 x - x| ≤ 1 / 200 := by
  have h : |((round (x * 100) : ℤ) : ℚ) - x * 100| ≤ 1 / 2 := by
    rw [abs_sub_comm]
    exact abs_sub_round (x * 100)
  have e : round2 x - x = (((round (x * 100) : ℤ) : ℚ) - x * 100) / 100 := by
    unfold round2
    ring
  rw [e, abs_div, abs_of_pos (by norm_num : (0:ℚ) < 100)]
  linarith

/-- The arithmetic behind the mock-data consistency bound: rounding the
synthesized price, change and changePercent to two decimals keeps the
`change = price - previousClose` and `changePercent = change /
previousClose * 100` identities within 1/100, provided the previous
close is at least 100. -/
theorem round2_consistency (cp pc : ℚ) (h : 100 ≤ pc) :
    |round2 (cp - pc) - (round2 cp - pc)| ≤ 1 / 100 ∧
    |round2 ((cp - pc) / pc * 100) - round2 (cp - pc) / pc * 100| ≤
      1 / 100 := by
  have hpc0 : (0:ℚ) < pc := by linarith
  have h1 := abs_round2_sub (cp - pc)
  have h2 := abs_round2_sub cp
  have h3 := abs_round2_sub ((cp - pc) / pc * 100)
  constructor
  · rw [abs_le] at h1 h2 ⊢
    constructor <;> linarith
  · have e : (cp - pc) / pc * 100 - round2 (cp - pc) / pc * 100
        = ((cp - pc) - round2 (cp - pc)) * (100 / pc) := by
      field_simp
      ring
    have key : |(cp - pc) / pc * 100 - round2 (cp - pc) / pc * 100| ≤
        1 / 200 * (100 / pc) := by
      rw [e, abs_mul, abs_of_pos (by positivity : (0:ℚ) < 100 / pc)]
      apply mul_le_mul_of_nonneg_right _ (by positivity)
      rw [abs_sub_comm]
      exact h1
    have hfrac : 100 / pc ≤ 1 := by
      rw [div_le_one hpc0]
      linarith
    have key2 : |(cp - pc) / pc * 100 - round2 (cp - pc) / pc * 100| ≤
        1 / 200 := by
      calc |(cp - pc) / pc * 100 - round2 (cp - pc) / pc * 100|
          ≤ 1 / 200 * (100 / pc) := key
        _ ≤ 1 / 200 * 1 := by linarith
        _ = 1 / 200 := by norm_num
    calc |round2 ((cp - pc) / pc * 100) - round2 (cp - pc) / pc * 100|
        = |(round2 ((cp - pc) / pc * 100) - (cp - pc) / pc * 100) +
            ((cp - pc) / pc * 100 - round2 (cp - pc) / pc * 100)| := by
          congr 1
          ring
      _ ≤ |round2 ((cp - pc) / pc * 100) - (cp - pc) / pc * 100| +
            |(cp - pc) / pc * 100 - round2 (cp - pc) / pc * 100| :=
          abs_add _ _
      _ ≤ 1 / 200 + 1 / 200 := add_le_add h3 key2
      _ = 1 / 100 := by norm_num

/-- C4 (amended): at a market-open timestamp with the live source
failing, the tick emits the mock-generated quote as live (not stale),
and that quote satisfies `change = price - previousClose` and
`changePercent = change / previousClose * 100` within 1/100 — the
tolerance forced by the `toFixed(2)` rounding of each emitted field —
provided the effective previous close is at least 100 (it is 24250 by
default and near the index level in practice). -/
theorem tick_open_live_failure_mock_consistent (day hour minute : ℕ)
    (live : LiveOutcome) (cache : CacheState) (remote : RemoteOutcome)
    (current : Data) (r1 r2 r3 r4 : ℚ)
    (hopen : isMarketOpen day hour minute = true)
    (hlive : tryFetchFromFinance live = none)
    (hpc : 100 ≤ orZero current.close (orZero current.price 24250)) :
    fetchNiftyPrice day hour minute live cache remote current
        r1 r2 r3 r4 =
      (.live (mockSessionData current r1 r2 r3 r4), cache) ∧
    |(mockSessionData current r1 r2 r3 r4).change -
        ((mockSessionData current r1 r2 r3 r4).price -
          (mockSessionData current r1 r2 r3 r4).close)| ≤ 1 / 100 ∧
    |(mockSessionData current r1 r2 r3 r4).changePercent -
        (mockSessionData current r1 r2 r3 r4).change /
          (mockSessionData current r1 r2 r3 r4).close * 100| ≤ 1 / 100 ∧
    (mockSessionData current r1 r2 r3 r4).isLastTradingDay = false := by
  have hcons := round2_consistency
    (orZero current.price 24250 + (r1 - 0.5) * 200)
    (orZero current.close (orZero current.price 24250)) hpc
  refine ⟨by simp [fetchNiftyPrice, hopen, hlive, generateMockData],
    ?_, ?_, rfl⟩
  · simpa [mockSessionData] using hcons.1
  · simpa [mockSessionData] using hcons.2

/-- C4 (counterexample): a market-open tick (Tuesday 10:00 IST) with a
failing live source, `currentData` price 24250 / close 24240, and
`Math.random() = 1/2` (zero perturbation) emits a mock quote whose
`changePercent` is 0.04 (rounded by `toFixed(2)`) while
`change / previousClose * 100 = 25/606 ≈ 0.041254`: the deviation
(≈ 0.00125) exceeds the claimed 1e-6 tolerance. -/
theorem tick_mock_changePercent_beyond_1e6 :
    (fetchNiftyPrice 2 10 0 .transportError .absent .notOk
        ⟨24250, 0, 0, 0, 0, 0, 24240, false⟩ (1/2) 0 0 0).1 =
      .live (mockSessionData ⟨24250, 0, 0, 0, 0, 0, 24240, false⟩
        (1/2) 0 0 0) ∧
    ¬ (|(mockSessionData ⟨24250, 0, 0, 0, 0, 0, 24240, false⟩
          (1/2) 0 0 0).changePercent -
        (mockSessionData ⟨24250, 0, 0, 0, 0, 0, 24240, false⟩
          (1/2) 0 0 0).change /
          (mockSessionData ⟨24250, 0, 0, 0, 0, 0, 24240, false⟩
            (1/2) 0 0 0).close * 100| ≤ 1 / 1000000) := by
  refine ⟨rfl, ?_⟩
  norm_num [mockSessionData, orZero, round2, round_eq, abs_le]

/-- Evaluation of `tick_open_live_failure_mock_consistent` at the same
concrete market-open tick. -/
theorem tick_open_live_failure_mock_consistent_witness :
    fetchNiftyPrice 2 10 0 .notOk .absent .notOk
        ⟨24250, 0, 0, 0, 0, 0, 24240, false⟩ (1/2) 0 0 0 =
      (.live (mockSessionData ⟨24250, 0, 0, 0, 0, 0, 24240, false⟩
        (1/2) 0 0 0), .absent) ∧
    |(mockSessionData ⟨24250, 0, 0, 0, 0, 0, 24240, false⟩
        (1/2) 0 0 0).change -
      ((mockSessionData ⟨24250, 0, 0, 0, 0, 0, 24240, false⟩
          (1/2) 0 0 0).price -
        (mockSessionData ⟨24250, 0, 0, 0, 0, 0, 24240, false⟩
          (1/2) 0 0 0).close)| ≤ 1 / 100 ∧
    |(mockSessionData ⟨24250, 0, 0, 0, 0, 0, 24240, false⟩
        (1/2) 0 0 0).changePercent -
      (mockSessionData ⟨24250, 0, 0, 0, 0, 0, 24240, false⟩
          (1/2) 0 0 0).change /
        (mockSessionData ⟨24250, 0, 0, 0, 0, 0, 24240, false⟩
          (1/2) 0 0 0).close * 100| ≤ 1 / 100 ∧
    (mockSessionData ⟨24250, 0, 0, 0, 0, 0, 24240, false⟩
        (1/2) 0 0 0).isLastTradingDay = false :=
  tick_open_live_failure_mock_consistent 2 10 0 .notOk .absent .notOk
    ⟨24250, 0, 0, 0, 0, 0, 24240, false⟩ (1/2) 0 0 0
    (by decide) rfl (by norm_num [orZero])

end MarketAnalysis
